import Mathlib

/-!
Shallow embedding of `journal.py`, a single-user journaling CLI.
Entries are records with `date`, `mood`, `text` string fields; the
backing store is a JSON file; query operations are pure functions
over an in-memory list of entries.
-/

set_option maxHeartbeats 1000000

/-- One journal record, as built by `add_entry` in `journal.py`
(`{"date": date, "mood": mood, "text": text}`). -/
structure Entry where
  date : String
  mood : String
  text : String
deriving DecidableEq, Repr

/-- `VALID_MOODS = ["happy", "neutral", "sad"]` (journal.py line 13). -/
def VALID_MOODS : List String := ["happy", "neutral", "sad"]

/-- JSON values, the structured documents produced by `json.dump` and
consumed by `json.load`. -/
inductive Json where
  | null
  | bool (b : Bool)
  | num (n : Int)
  | str (s : String)
  | arr (items : List Json)
  | obj (fields : List (String × Json))

/-- Serialization of one entry dict, as `json.dump` renders the dict
literal built in `add_entry`. -/
def encodeEntry (e : Entry) : Json :=
  Json.obj [("date", Json.str e.date), ("mood", Json.str e.mood), ("text", Json.str e.text)]

/-- Serialization of the whole entries list (a JSON array of objects). -/
def encodeEntries (es : List Entry) : Json :=
  Json.arr (es.map encodeEntry)

/-- Reading one serialized entry back as the record the program
manipulates (an object with the three string fields). -/
def decodeEntry : Json → Option Entry
  | Json.obj [("date", Json.str d), ("mood", Json.str m), ("text", Json.str t)] =>
      some { date := d, mood := m, text := t }
  | _ => none

/-- Reading back a list of serialized entries; fails if any element fails. -/
def decodeEntryList : List Json → Option (List Entry)
  | [] => some []
  | j :: js =>
      match decodeEntry j, decodeEntryList js with
      | some e, some es => some (e :: es)
      | _, _ => none

/-- Reading a JSON document back as an entry collection. -/
def decodeEntries : Json → Option (List Entry)
  | Json.arr js => decodeEntryList js
  | _ => none

/-- State of the backing store file `journal.json`: absent (first run);
readable text but not parseable as JSON (`json.JSONDecodeError`);
unreadable for environmental reasons (`OSError`); bytes that are not
decodable as text, where reading inside `json.load` raises
`UnicodeDecodeError` — a `ValueError` that is not a
`json.JSONDecodeError`, so neither handler in `load_entries` catches
it; or present with parsed content `j`. -/
inductive FileState where
  | missing
  | malformed
  | unreadable
  | undecodable
  | content (j : Json)

/-- The file-system environment: the journal file's state plus whether
writes succeed (`writable = false` models `OSError` on open-for-write). -/
structure Store where
  file : FileState
  writable : Bool

/-- `load_entries` (journal.py lines 24-36): returns `[]` when the file
is missing, `[]` with a warning on `json.JSONDecodeError`, `[]` with an
error message on `OSError`, and otherwise the parsed JSON value as-is.
On a file whose bytes are not decodable text, `json.load` raises
`UnicodeDecodeError`, which neither `except` clause catches: the
exception propagates out of the function, modelled by the `error`
outcome. -/
def load_entries (st : Store) : Except String Json :=
  match st.file with
  | FileState.missing => Except.ok (Json.arr [])
  | FileState.malformed => Except.ok (Json.arr [])
  | FileState.unreadable => Except.ok (Json.arr [])
  | FileState.undecodable => Except.error "UnicodeDecodeError"
  | FileState.content j => Except.ok j

/-- `save_entries` (journal.py lines 42-50): writes the serialized list
over the file and returns `True`, or returns `False` on `OSError`
leaving the file as it was. -/
def save_entries (es : List Entry) (st : Store) : Bool × Store :=
  if st.writable then
    (true, { st with file := FileState.content (encodeEntries es) })
  else
    (false, st)

/-- Auxiliary scan for `pyStrip`: remove leading whitespace characters. -/
def dropLeadingSpace : List Char → List Char
  | [] => []
  | c :: cs => if c.isWhitespace then dropLeadingSpace cs else c :: cs

/-- Python's `str.strip()`: remove whitespace from both ends. -/
def pyStrip (s : String) : String :=
  String.mk ((dropLeadingSpace ((dropLeadingSpace s.data).reverse)).reverse)

/-- Python's `str.lower()`: lowercase every character. -/
def pyLower (s : String) : String :=
  String.mk (s.data.map Char.toLower)

/-- `add_entry` (journal.py lines 56-88), with the prompted inputs
(`date`, validated `mood`, raw text line) passed as arguments: strips
the text, returns the collection unchanged when it is empty, otherwise
appends the new entry dict and saves. The `Bool` is whether a save
succeeded (the "Saved!" message). -/
def add_entry (entries : List Entry) (date mood textInput : String) (st : Store) :
    List Entry × Bool × Store :=
  let text := pyStrip textInput
  if text = "" then
    (entries, false, st)
  else
    let entry : Entry := { date := date, mood := mood, text := text }
    let es := entries ++ [entry]
    let r := save_entries es st
    (es, r.1, r.2)

/-- `view_by_mood` (journal.py lines 121-143), reduced to its data
computation: early exit on an empty collection, otherwise the list
comprehension `[e for e in entries if e["mood"] == mood]`. -/
def view_by_mood (entries : List Entry) (mood : String) : List Entry :=
  if entries.isEmpty then []
  else entries.filter (fun e => e.mood == mood)

/-- `leadsWith needle hay`: `hay` begins with `needle` (character-wise). -/
def leadsWith : List Char → List Char → Bool
  | [], _ => true
  | _ :: _, [] => false
  | a :: as, b :: bs => a == b && leadsWith as bs

/-- `occursIn needle hay`: Python's `needle in hay` substring test. -/
def occursIn (needle : List Char) : List Char → Bool
  | [] => leadsWith needle []
  | c :: t => leadsWith needle (c :: t) || occursIn needle t

/-- `search_entries` (journal.py lines 149-172), reduced to its data
computation: early exit on an empty collection, early exit when the
stripped keyword is empty, otherwise the list comprehension
`[e for e in entries if keyword_lower in e["text"].lower()]`. -/
def search_entries (entries : List Entry) (keywordInput : String) : List Entry :=
  if entries.isEmpty then []
  else
    let keyword := pyStrip keywordInput
    if keyword = "" then []
    else
      let keywordLower := pyLower keyword
      entries.filter (fun e => occursIn keywordLower.data (pyLower e.text).data)

/-- One pass of the tally loop body (journal.py lines 188-191):
`if mood in counts: counts[mood] += 1`. -/
def tallyStep (counts : List (String × Nat)) (mood : String) : List (String × Nat) :=
  counts.map (fun p => if p.1 = mood then (p.1, p.2 + 1) else p)

/-- The counts dictionary of `mood_summary` (journal.py lines 185-191):
`{mood: 0 for mood in VALID_MOODS}` then the tally loop, with insertion
order `happy, neutral, sad` preserved. -/
def moodCounts (entries : List Entry) : List (String × Nat) :=
  entries.foldl (fun counts e => tallyStep counts e.mood) (VALID_MOODS.map (fun m => (m, 0)))

/-- `(count / total * 100) if total > 0 else 0` (journal.py line 200),
with exact rational division as the idealized arithmetic. -/
def percent (count total : Nat) : ℚ :=
  if total > 0 then (count : ℚ) / (total : ℚ) * 100 else 0

/-- `max(counts, key=lambda m: counts[m])` (journal.py line 206): scan
the pairs in dictionary insertion order, keeping the first whose count
is not strictly exceeded later. -/
def topMood (counts : List (String × Nat)) : String :=
  match counts with
  | [] => ""
  | c :: cs => (cs.foldl (fun best p => if p.2 > best.2 then p else best) c).1

/-- The data computed and displayed by `mood_summary`. -/
structure Summary where
  counts : List (String × Nat)
  total : Nat
  percents : List (String × ℚ)
  top_mood : String
deriving Repr, DecidableEq

/-- `mood_summary` (journal.py lines 178-207): early exit (`none`) on an
empty collection, otherwise the per-mood counts, the total, the per-mood
percentages, and the most frequent mood. -/
def mood_summary (entries : List Entry) : Option Summary :=
  if entries.isEmpty then none
  else
    let counts := moodCounts entries
    let total := entries.length
    let percents := counts.map (fun p => (p.1, percent p.2 total))
    some { counts := counts, total := total, percents := percents,
           top_mood := topMood counts }

/-- A dispatched menu action of `main` (journal.py lines 250-259), with
the per-branch user inputs attached. -/
inductive MenuAction where
  | add (date mood text : String)
  | viewAll
  | viewMood (mood : String)
  | summary
  | search (keyword : String)

/-- The state update performed by one iteration of the `main` loop
(journal.py lines 250-259): only choice 1 rebinds `entries`
(`entries = add_entry(entries)`); choices 2-5 call the display
functions, which return nothing. -/
def dispatch (entries : List Entry) (st : Store) : MenuAction → List Entry × Store
  | MenuAction.add d m t =>
      let r := add_entry entries d m t st
      (r.1, r.2.2)
  | MenuAction.viewAll => (entries, st)
  | MenuAction.viewMood _ => (entries, st)
  | MenuAction.summary => (entries, st)
  | MenuAction.search _ => (entries, st)

/-- Number of entries of `es` whose mood is `m` (proof-side shorthand). -/
def cnt (m : String) (es : List Entry) : Nat :=
  (es.filter (fun e => e.mood == m)).length

/-- Example collections used in concrete instances below. -/
def demoOne : List Entry := [{ date := "2024-01-01 10:00", mood := "happy", text := "First day" }]

/-- A collection whose tally is {happy: 2, neutral: 2, sad: 0}. -/
def tieEntries : List Entry :=
  [{ date := "d1", mood := "happy", text := "a" },
   { date := "d2", mood := "neutral", text := "b" },
   { date := "d3", mood := "happy", text := "c" },
   { date := "d4", mood := "neutral", text := "d" }]

/-- A collection with moods happy, sad, happy, neutral, happy. -/
def fiveMoods : List Entry :=
  [{ date := "d1", mood := "happy", text := "t1" },
   { date := "d2", mood := "sad", text := "t2" },
   { date := "d3", mood := "happy", text := "t3" },
   { date := "d4", mood := "neutral", text := "t4" },
   { date := "d5", mood := "happy", text := "t5" }]

/-- A one-entry collection for the keyword-search example. -/
def demoSearch : List Entry :=
  [{ date := "2024-01-02 09:00", mood := "happy", text := "Had a Great Day" }]

lemma decodeEntry_encodeEntry (e : Entry) : decodeEntry (encodeEntry e) = some e := rfl

lemma decodeEntryList_map (es : List Entry) :
    decodeEntryList (es.map encodeEntry) = some es := by
  induction es with
  | nil => rfl
  | cons e es ih =>
    simp only [List.map_cons, decodeEntryList, decodeEntry_encodeEntry, ih]

lemma decode_encode (es : List Entry) : decodeEntries (encodeEntries es) = some es := by
  simp only [encodeEntries, decodeEntries, decodeEntryList_map]

/-- C1: saving a collection and loading it back returns exactly the
serialized document, which decodes to the original collection (same
order, same field values), provided the write itself succeeds. -/
theorem C1_round_trip (C : List Entry) (st : Store) (hw : st.writable = true) :
    load_entries (save_entries C st).2 = Except.ok (encodeEntries C)
    ∧ Except.map decodeEntries (load_entries (save_entries C st).2)
        = Except.ok (some C) := by
  have h : (save_entries C st).2 = { st with file := FileState.content (encodeEntries C) } := by
    simp [save_entries, hw]
  rw [h]
  exact ⟨rfl, by simp [load_entries, Except.map, decode_encode]⟩

theorem C1_round_trip_witness :
    Except.map decodeEntries
        (load_entries (save_entries demoOne { file := FileState.missing, writable := true }).2)
      = Except.ok (some demoOne) :=
  (C1_round_trip demoOne { file := FileState.missing, writable := true } rfl).2

/-- C3: `add_entry` invoked with empty text returns the collection
unchanged, signals that nothing was saved, and leaves the backing store
untouched (no entry is built, no save happens). -/
theorem C3_append_empty_text (entries : List Entry) (date mood : String) (st : Store) :
    add_entry entries date mood "" st = (entries, false, st) := rfl

/-- C4: the claim's "never propagates an exception for any state of the
backing store" fails on the code: a store whose bytes are not decodable
text makes `load_entries` raise an uncaught `UnicodeDecodeError` (it is
a `ValueError` but not a `json.JSONDecodeError`, and not an `OSError`,
so neither handler catches it). On the states the handlers do cover —
missing file and JSON parse failure — the load does return the empty
collection as claimed. -/
theorem C4_load_raises_on_undecodable (w : Bool) :
    load_entries { file := FileState.undecodable, writable := w }
      = Except.error "UnicodeDecodeError"
    ∧ load_entries { file := FileState.missing, writable := w } = Except.ok (Json.arr [])
    ∧ load_entries { file := FileState.malformed, writable := w } = Except.ok (Json.arr []) :=
  ⟨rfl, rfl, rfl⟩

lemma cnt_cons (m : String) (e : Entry) (es : List Entry) :
    cnt m (e :: es) = (if e.mood = m then 1 else 0) + cnt m es := by
  by_cases h : e.mood = m <;> simp [cnt, List.filter_cons, h] <;> omega

lemma tallyStep_three (a b c : Nat) (mood : String) :
    tallyStep [("happy", a), ("neutral", b), ("sad", c)] mood
      = [("happy", if "happy" = mood then a + 1 else a),
         ("neutral", if "neutral" = mood then b + 1 else b),
         ("sad", if "sad" = mood then c + 1 else c)] := by
  simp only [tallyStep, List.map_cons, List.map_nil]
  by_cases h1 : ("happy" : String) = mood <;> by_cases h2 : ("neutral" : String) = mood <;>
    by_cases h3 : ("sad" : String) = mood <;> simp [h1, h2, h3]

lemma foldl_tally (es : List Entry) (a b c : Nat) :
    es.foldl (fun counts e => tallyStep counts e.mood) [("happy", a), ("neutral", b), ("sad", c)]
      = [("happy", a + cnt "happy" es), ("neutral", b + cnt "neutral" es),
         ("sad", c + cnt "sad" es)] := by
  induction es generalizing a b c with
  | nil => simp [cnt]
  | cons e es ih =>
    rw [List.foldl_cons, tallyStep_three, ih]
    have k1 : (("happy" : String) = e.mood) = (e.mood = "happy") := by
      exact propext eq_comm
    have k2 : (("neutral" : String) = e.mood) = (e.mood = "neutral") := by
      exact propext eq_comm
    have k3 : (("sad" : String) = e.mood) = (e.mood = "sad") := by
      exact propext eq_comm
    simp only [k1, k2, k3, cnt_cons]
    by_cases h1 : e.mood = "happy" <;> by_cases h2 : e.mood = "neutral" <;>
      by_cases h3 : e.mood = "sad" <;> simp [h1, h2, h3] <;> omega

lemma moodCounts_eq (es : List Entry) :
    moodCounts es
      = [("happy", cnt "happy" es), ("neutral", cnt "neutral" es), ("sad", cnt "sad" es)] := by
  have h := foldl_tally es 0 0 0
  simpa [moodCounts, VALID_MOODS] using h

lemma cnt_sum_valid (es : List Entry) (h : ∀ e ∈ es, e.mood ∈ VALID_MOODS) :
    cnt "happy" es + cnt "neutral" es + cnt "sad" es = es.length := by
  induction es with
  | nil => rfl
  | cons e es ih =>
    have he : e.mood ∈ VALID_MOODS := h e (List.mem_cons_self _ _)
    have hes : ∀ x ∈ es, x.mood ∈ VALID_MOODS := fun x hx => h x (List.mem_cons_of_mem _ hx)
    have hsum := ih hes
    simp only [cnt_cons, List.length_cons]
    simp only [VALID_MOODS, List.mem_cons, List.not_mem_nil, or_false] at he
    rcases he with h1 | h1 | h1 <;> rw [h1] <;> simp <;> omega

/-- C2, counterexample to the claim as stated: an entry whose mood lies
outside the fixed mood set (possible since `load_entries` accepts
records as-is) is counted in `len(entries)` but in no bucket of the
tally, so the counts sum to 0 while the collection has 1 entry. -/
theorem C2_counterexample :
    ((moodCounts [{ date := "2024-01-01 10:00", mood := "angry", text := "Ugh" }]).map
        Prod.snd).sum
      ≠ ([{ date := "2024-01-01 10:00", mood := "angry", text := "Ugh" }] : List Entry).length := by
  decide

/-- C2 (amended): for every collection whose entries all carry a mood
from the fixed mood set, the per-mood counts of the tally sum to the
number of entries in the collection. -/
theorem C2_tally_sums_to_total (entries : List Entry)
    (h : ∀ e ∈ entries, e.mood ∈ VALID_MOODS) :
    ((moodCounts entries).map Prod.snd).sum = entries.length := by
  rw [moodCounts_eq]
  have hsum := cnt_sum_valid entries h
  simp only [List.map_cons, List.map_nil, List.sum_cons, List.sum_nil]
  omega

theorem C2_tally_sums_to_total_witness :
    ((moodCounts demoOne).map Prod.snd).sum = demoOne.length :=
  C2_tally_sums_to_total demoOne (by decide)

lemma topMood_three (x y z : Nat) :
    topMood [("happy", x), ("neutral", y), ("sad", z)]
      = if y > x then (if z > y then "sad" else "neutral")
        else (if z > x then "sad" else "happy") := by
  simp only [topMood, List.foldl_cons, List.foldl_nil]
  by_cases h1 : y > x <;> by_cases h2 : z > y <;> by_cases h3 : z > x <;>
    simp [h1, h2, h3]

/-- C5: the reported most-frequent mood lies in the fixed mood set, has
a maximal count, and no mood tying its count appears strictly earlier in
the fixed enumeration order happy, neutral, sad; in particular the tally
{happy: 2, neutral: 2, sad: 0} reports "happy". -/
theorem C5_top_mood (entries : List Entry) :
    topMood (moodCounts entries) ∈ VALID_MOODS
    ∧ (∀ m ∈ VALID_MOODS, cnt m entries ≤ cnt (topMood (moodCounts entries)) entries)
    ∧ (∀ m ∈ VALID_MOODS, cnt m entries = cnt (topMood (moodCounts entries)) entries →
        VALID_MOODS.indexOf (topMood (moodCounts entries)) ≤ VALID_MOODS.indexOf m)
    ∧ (mood_summary tieEntries).map Summary.top_mood = some "happy" := by
  rw [moodCounts_eq, topMood_three]
  by_cases h1 : cnt "neutral" entries > cnt "happy" entries <;>
    by_cases h2 : cnt "sad" entries > cnt "neutral" entries <;>
      by_cases h3 : cnt "sad" entries > cnt "happy" entries <;>
        simp only [h1, h2, h3, if_true, if_false] <;>
  refine ⟨by decide, ?_, ?_, by decide⟩ <;>
    intro m hm <;>
      simp only [VALID_MOODS, List.mem_cons, List.not_mem_nil, or_false] at hm <;>
        rcases hm with rfl | rfl | rfl <;>
          first
          | omega
          | (intro he; first | decide | (exfalso; omega))

theorem C5_top_mood_witness :
    cnt "neutral" tieEntries ≤ cnt (topMood (moodCounts tieEntries)) tieEntries :=
  (C5_top_mood tieEntries).2.1 "neutral" (by decide)

/-- C6: the keyword search returns the empty list for an empty keyword
on any collection; for a nonempty (stripped) keyword it returns, in
original order, exactly the entries whose lowercased text contains the
lowercased keyword as a substring; the spec's example text
"Had a Great Day" matches the keyword "great". -/
theorem C6_keyword_search (entries : List Entry) (kw : String) :
    search_entries entries "" = []
    ∧ (pyStrip kw ≠ "" →
        search_entries entries kw
          = entries.filter
              (fun e => occursIn (pyLower (pyStrip kw)).data (pyLower e.text).data))
    ∧ search_entries demoSearch "great" = demoSearch := by
  refine ⟨?_, ?_, by decide⟩
  · cases entries <;> rfl
  · intro h
    by_cases he : entries.isEmpty
    · have : entries = [] := by simpa [List.isEmpty_iff] using he
      simp [search_entries, this]
    · simp [search_entries, he, h]

theorem C6_keyword_search_witness :
    search_entries demoSearch "great"
      = demoSearch.filter
          (fun e => occursIn (pyLower (pyStrip "great")).data (pyLower e.text).data) :=
  (C6_keyword_search demoSearch "great").2.1 (by decide)

/-- C7: filtering by mood returns exactly the entries whose mood equals
the given one, in their original relative order; an empty collection
yields the empty list; on moods happy, sad, happy, neutral, happy the
filter for "happy" keeps the 1st, 3rd and 5th entries in order. -/
theorem C7_filter_by_mood (entries : List Entry) (m : String) :
    view_by_mood entries m = entries.filter (fun e => e.mood == m)
    ∧ (∀ e, e ∈ view_by_mood entries m ↔ e ∈ entries ∧ e.mood = m)
    ∧ view_by_mood ([] : List Entry) m = []
    ∧ view_by_mood fiveMoods "happy"
      = [{ date := "d1", mood := "happy", text := "t1" },
         { date := "d3", mood := "happy", text := "t3" },
         { date := "d5", mood := "happy", text := "t5" }] := by
  have hfil : view_by_mood entries m = entries.filter (fun e => e.mood == m) := by
    cases entries <;> simp [view_by_mood]
  refine ⟨hfil, ?_, rfl, by decide⟩
  intro e
  rw [hfil, List.mem_filter]
  simp [beq_iff_eq]

theorem C7_filter_by_mood_witness :
    view_by_mood fiveMoods "happy"
      = [{ date := "d1", mood := "happy", text := "t1" },
         { date := "d3", mood := "happy", text := "t3" },
         { date := "d5", mood := "happy", text := "t5" }] :=
  (C7_filter_by_mood fiveMoods "happy").2.2.2

lemma cnt_le_length (m : String) (es : List Entry) : cnt m es ≤ es.length :=
  List.length_filter_le _ _

lemma percent_bounds (c t : Nat) (h : c ≤ t) : 0 ≤ percent c t ∧ percent c t ≤ 100 := by
  unfold percent
  split
  · rename_i ht
    have ht' : (0 : ℚ) < t := by exact_mod_cast ht
    have hct : (c : ℚ) ≤ t := by exact_mod_cast h
    constructor
    · positivity
    · have h1 : (c : ℚ) / t ≤ 1 := (div_le_one ht').mpr hct
      nlinarith
  · simp

/-- C8: in the mood summary, the reported total is the collection size,
every percentage equals `percent(count, total)` (count/total×100 when
total > 0) with the count of its mood, every percentage lies in
[0, 100], and `percent` is 0 by definition when the total is 0, so no
division by zero occurs. -/
theorem C8_percentages (entries : List Entry) (s : Summary)
    (hs : mood_summary entries = some s) :
    s.total = entries.length
    ∧ (∀ p ∈ s.percents, p.2 = percent (cnt p.1 entries) s.total ∧ 0 ≤ p.2 ∧ p.2 ≤ 100)
    ∧ (∀ k : Nat, percent k 0 = 0) := by
  by_cases he : entries.isEmpty
  · simp [mood_summary, he] at hs
  · simp only [mood_summary, he, if_neg, Bool.false_eq_true, ite_false,
      Option.some.injEq] at hs
    subst hs
    refine ⟨rfl, ?_, fun k => rfl⟩
    intro p hp
    rw [moodCounts_eq] at hp
    simp only [List.map_cons, List.map_nil, List.mem_cons, List.not_mem_nil, or_false] at hp
    rcases hp with rfl | rfl | rfl <;>
      exact ⟨rfl, (percent_bounds _ _ (cnt_le_length _ _)).1,
        (percent_bounds _ _ (cnt_le_length _ _)).2⟩

theorem C8_percentages_witness : percent 0 0 = 0 :=
  (C8_percentages demoOne
      { counts := [("happy", 1), ("neutral", 0), ("sad", 0)], total := 1,
        percents := [("happy", (100 : ℚ)), ("neutral", 0), ("sad", 0)],
        top_mood := "happy" }
      (by simp [mood_summary, demoOne, moodCounts, VALID_MOODS, tallyStep, topMood,
        percent])).2.2 0

/-- C9: the read-only menu actions (view by mood, keyword search, mood
summary, and view all) leave both the in-memory collection and the
backing store exactly as they were, and the result lists built by the
mood filter and the keyword search are sublists of the collection (new
lists drawn from it in order, never a mutation or reordering of it). -/
theorem C9_queries_pure (entries : List Entry) (st : Store) (m kw : String) :
    dispatch entries st (MenuAction.viewMood m) = (entries, st)
    ∧ dispatch entries st (MenuAction.search kw) = (entries, st)
    ∧ dispatch entries st MenuAction.summary = (entries, st)
    ∧ dispatch entries st MenuAction.viewAll = (entries, st)
    ∧ (view_by_mood entries m).Sublist entries
    ∧ (search_entries entries kw).Sublist entries := by
  refine ⟨rfl, rfl, rfl, rfl, ?_, ?_⟩
  · by_cases he : entries.isEmpty <;>
      simp [view_by_mood, he, List.nil_sublist, List.filter_sublist]
  · by_cases he : entries.isEmpty
    · simp [search_entries, he, List.nil_sublist]
    · by_cases hk : pyStrip kw = "" <;>
        simp [search_entries, he, hk, List.nil_sublist, List.filter_sublist]

/-- C10: an entry whose mood lies outside the fixed mood set (which
`load_entries` can deliver, since it accepts deserialized records
as-is) leaves every per-mood count of the tally unchanged while still
increasing the collection's length, i.e. the reported total. -/
theorem C10_invalid_mood_uncounted (entries : List Entry) (e : Entry)
    (h : e.mood ∉ VALID_MOODS) :
    moodCounts (entries ++ [e]) = moodCounts entries
    ∧ (entries ++ [e]).length = entries.length + 1 := by
  have hne : ∀ m ∈ VALID_MOODS, e.mood ≠ m := fun m hm heq => h (heq ▸ hm)
  have hcnt : ∀ m ∈ VALID_MOODS, cnt m (entries ++ [e]) = cnt m entries := by
    intro m hm
    unfold cnt
    rw [List.filter_append]
    have hone : List.filter (fun x => x.mood == m) [e] = [] := by
      simp [List.filter_cons, hne m hm]
    simp [hone]
  refine ⟨?_, by simp⟩
  rw [moodCounts_eq, moodCounts_eq,
    hcnt "happy" (by decide), hcnt "neutral" (by decide), hcnt "sad" (by decide)]

theorem C10_invalid_mood_uncounted_witness :
    moodCounts ([] ++ [{ date := "2024-01-01 00:00", mood := "angry", text := "x" }])
      = moodCounts [] :=
  (C10_invalid_mood_uncounted []
      { date := "2024-01-01 00:00", mood := "angry", text := "x" } (by decide)).1
